import Mathlib

/-!
# Verification of the vehicle-dashboard simulation

Shallow embedding of the two near-identical source files `src/basic.py` and
`src/vehicle_dashboard.py`.  The logic of the functions `initialize_dashboard`
(here `init_dashboard_data`), `load_thresholds`, `get_real_time_data`,
`check_alerts` and `run_monitoring_cycle` is identical across the two files
(they differ only in message strings and in optional logging), so one set of
definitions covers both.

Modelling conventions:
* the telemetry dictionary becomes the structure `VehicleData`; speed and rpm
  are integers (they start at integer values and only integer deltas are
  added), the battery percentage is a rational;
* Python floats are modelled as exact rationals; `round(x, 2)` is modelled by
  `round2`, decimal round-half-to-even at two decimal places;
* the two `random.randint` draws of a step become explicit integer arguments;
  the process-wide random source of the loop becomes an explicit stream
  `Nat → ℤ × ℤ` of (speed delta, rpm noise) pairs;
* the configuration resource becomes `Option RawConfig` (`none` = the file
  `config.ini` does not exist; `RawConfig.malformed` = content on which
  `config.read` itself raises a `configparser.Error`, e.g. text before any
  section header or a duplicate option under the default strict mode —
  `config.read` sits *outside* the `try` block of `load_thresholds`;
  `RawConfig.wellformed c` = content that `read` parses into the section
  table `c`); `configparser.getfloat` is modelled by `ConfigFile.getfloat`:
  it fails with `PyErr.configparser_error` when the section or the option is
  missing (`NoSectionError` / `NoOptionError`) or when `BasicInterpolation`
  of the raw value fails (`InterpolationError` — all `configparser.Error`
  subclasses), and with `PyErr.value_error` when the interpolated value is
  not numeric (Python `float()` raises `ValueError`, which is *not* a
  `configparser.Error`);
* `print` output relevant to the claims (the warning lines of
  `load_thresholds`) is returned explicitly; display rendering, logging and
  `time.sleep` have no effect on the state and are not modelled.
-/

/-- Decimal rounding of a rational to the nearest integer, ties to the even
integer: the model of Python `round(q)` (banker's rounding). -/
def round_half_even (q : ℚ) : ℤ :=
  if Int.fract q < 1/2 then Int.floor q
  else if 1/2 < Int.fract q then Int.floor q + 1
  else if Int.floor q % 2 = 0 then Int.floor q else Int.floor q + 1

/-- Model of Python `round(q, 2)`: round to two decimal places. -/
def round2 (q : ℚ) : ℚ := (round_half_even (q * 100) : ℚ) / 100

/-- The telemetry record: the dictionary with keys `Speed_Km_hr`, `RPM`,
`Battery_Level_Pct` built by `initialize_dashboard` and mutated in place by
`get_real_time_data`. -/
structure VehicleData where
  speed_km_hr : ℤ
  rpm : ℤ
  battery_level_pct : ℚ
deriving DecidableEq, Repr

/-- `initialize_dashboard` (src/basic.py lines 9-17, src/vehicle_dashboard.py
lines 18-25): the initial telemetry record. -/
def init_dashboard_data : VehicleData :=
  { speed_km_hr := 0, rpm := 0, battery_level_pct := 100 }

/-- `get_real_time_data` (src/basic.py lines 50-66, src/vehicle_dashboard.py
lines 55-67) with the two `random.randint` draws made explicit:
`speed_change = random.randint(-15, 15)`, `noise = random.randint(-400, 400)`.
The source mutates the dictionary field by field and returns it; here the
sequence of field updates is the returned record. -/
def get_real_time_data (current_data : VehicleData) (speed_change noise : ℤ) :
    VehicleData :=
  let new_speed : ℤ := max 0 (current_data.speed_km_hr + speed_change)
  let new_rpm : ℤ := max 800 (min 6500 (new_speed * 30 + noise))
  let drain_factor : ℚ := 1/100 + (new_rpm : ℚ) / 1500000
  let new_battery : ℚ := max 0 (current_data.battery_level_pct - drain_factor)
  { speed_km_hr := new_speed, rpm := new_rpm,
    battery_level_pct := round2 new_battery }

/-- The threshold record returned by `load_thresholds`: the dictionary with
keys `Speed_Km_hr`, `RPM`, `Battery_Level_Pct`. -/
structure Thresholds where
  speed_km_hr : ℚ
  rpm : ℚ
  battery_level_pct : ℚ
deriving DecidableEq, Repr

/-- The hardcoded default thresholds of `load_thresholds`. -/
def default_thresholds : Thresholds :=
  { speed_km_hr := 110, rpm := 6000, battery_level_pct := 10 }

/-- An alert, as the tagged content of the alert strings appended by
`check_alerts`: the kind of alert, the offending current value and the
threshold that was crossed. -/
inductive Alert
  | high_speed (current : ℤ) (threshold : ℚ)
  | high_rpm (current : ℤ) (threshold : ℚ)
  | low_battery (current : ℚ) (threshold : ℚ)
deriving DecidableEq, Repr

def Alert.is_high_speed : Alert → Bool
  | .high_speed _ _ => true
  | _ => false

def Alert.is_high_rpm : Alert → Bool
  | .high_rpm _ _ => true
  | _ => false

def Alert.is_low_battery : Alert → Bool
  | .low_battery _ _ => true
  | _ => false

/-- `check_alerts` (src/basic.py lines 85-104, src/vehicle_dashboard.py lines
83-101): starts from an empty list and appends one alert per threshold check,
in source order.  Python compares the integer speed / rpm against the float
thresholds, modelled by the cast `ℤ → ℚ`. -/
def check_alerts (data : VehicleData) (thresholds : Thresholds) : List Alert :=
  let alerts : List Alert := []
  let alerts : List Alert :=
    if (data.speed_km_hr : ℚ) > thresholds.speed_km_hr then
      alerts ++ [Alert.high_speed data.speed_km_hr thresholds.speed_km_hr]
    else alerts
  let alerts : List Alert :=
    if (data.rpm : ℚ) > thresholds.rpm then
      alerts ++ [Alert.high_rpm data.rpm thresholds.rpm]
    else alerts
  let alerts : List Alert :=
    if data.battery_level_pct < thresholds.battery_level_pct then
      alerts ++ [Alert.low_battery data.battery_level_pct thresholds.battery_level_pct]
    else alerts
  alerts

/-- `check_alerts` with the telemetry record and the threshold record threaded
through explicitly, modelling that the source function receives both by
reference: the body of the source performs no assignment to either (its only
mutation is to the local `alerts` list), so the records are returned as they
came in. -/
def check_alerts_st (data : VehicleData) (thresholds : Thresholds) :
    VehicleData × Thresholds × List Alert :=
  (data, thresholds, check_alerts data thresholds)

/-- The Python exceptions that the configuration path can raise: any
`configparser.Error` subclass (`NoSectionError`, `NoOptionError`, ...), or the
`ValueError` raised by `float()` on a non-numeric string. -/
inductive PyErr
  | configparser_error
  | value_error
deriving DecidableEq, Repr

/-- A parsed configuration file: sections, each a list of (option, value)
pairs. -/
structure ConfigFile where
  sections : List (String × List (String × String))
deriving DecidableEq, Repr

/-- The outcome of `config.read(CONFIG_FILE)` on an *existing* file, a call
that sits outside the `try` block of `load_thresholds` (src/basic.py line 31,
src/vehicle_dashboard.py line 38): either the INI parser itself raises a
`configparser.Error` (`MissingSectionHeaderError` on content before any
section header; `DuplicateSectionError` / `DuplicateOptionError` under the
default `strict=True`) — abstracted as `malformed` — or it produces a section
table. -/
inductive RawConfig
  | malformed
  | wellformed (config : ConfigFile)
deriving DecidableEq, Repr

/-- Digits of a decimal numeral to a natural number; fails on the empty list
and on any non-digit character. -/
def parse_nat_digits (cs : List Char) : Option ℕ :=
  match cs with
  | [] => none
  | _ =>
    cs.foldl
      (fun acc c =>
        acc.bind fun n => if c.isDigit then some (n * 10 + (c.toNat - 48)) else none)
      (some 0)

/-- Model of Python `float()` on the strings relevant here: an optional sign
followed by a decimal numeral with an optional fractional part.  Returns
`none` exactly when `float()` raises `ValueError` (a non-numeric string).
(Python `float()` also strips surrounding whitespace, which no claim
exercises and which this model omits.) -/
def py_float (s : String) : Option ℚ :=
  let parse_unsigned : List Char → Option ℚ := fun cs =>
    match cs.splitOn ('.') with
    | [w] => (parse_nat_digits w).map (fun n => (n : ℚ))
    | [w, f] =>
      match parse_nat_digits w, parse_nat_digits f with
      | some n, some m => some ((n : ℚ) + (m : ℚ) / ((10 : ℚ) ^ f.length))
      | _, _ => none
    | _ => none
  match s.data with
  | [] => none
  | c :: cs =>
    if c = ('-') then (parse_unsigned cs).map (fun q => -q)
    else if c = ('+') then parse_unsigned cs
    else parse_unsigned (c :: cs)

/-- `configparser` option lookup: `NoSectionError` when the section is absent,
`NoOptionError` when the option is absent — both are `configparser.Error`
subclasses, so both map to `PyErr.configparser_error`. -/
def ConfigFile.get_value (config : ConfigFile) (sec opt : String) :
    Except PyErr String :=
  match config.sections.find? (fun p => p.1 == sec) with
  | none => Except.error PyErr.configparser_error
  | some section_pair =>
    match section_pair.2.find? (fun p => p.1 == opt) with
    | none => Except.error PyErr.configparser_error
    | some kv => Except.ok kv.2

/-- The percent-expansion pass of `configparser.BasicInterpolation` (the
default interpolation, applied by `getfloat` since it uses `raw=False`):
`%%` expands to a literal `%`; any other use of `%` — a lone or trailing `%`,
or a `%(name)s` reference — is mapped to `none`, standing for the
`InterpolationError` family.  (A *resolvable* `%(name)s` reference would
substitute in Python instead of raising; this model folds that corner into
the error case, which only widens the caught-`configparser.Error` path and
never turns a non-raising input into an escaping error.)  Characters other
than `%` pass through unchanged. -/
def interpolate_chars : List Char → Option (List Char)
  | [] => some []
  | ('%') :: ('%') :: rest => (interpolate_chars rest).map (fun t => ('%') :: t)
  | ('%') :: _ => none
  | c :: rest => (interpolate_chars rest).map (fun t => c :: t)

/-- `BasicInterpolation.before_get` on one raw value: percent-expansion, with
every interpolation failure raised as a `configparser.Error` subclass. -/
def basic_interpolation (s : String) : Except PyErr String :=
  match interpolate_chars s.data with
  | some cs => Except.ok (String.mk cs)
  | none => Except.error PyErr.configparser_error

/-- `config.getfloat(sec, opt)`: look the option up, interpolate the raw
value (`raw=False` default), then convert with `float()`; a present value
whose interpolation fails raises a caught-able `configparser.Error`, while a
value that interpolates to a non-numeric string raises `ValueError`, which is
not a `configparser.Error`. -/
def ConfigFile.getfloat (config : ConfigFile) (sec opt : String) :
    Except PyErr ℚ :=
  (config.get_value sec opt).bind fun v =>
    (basic_interpolation v).bind fun w =>
      match py_float w with
      | some q => Except.ok q
      | none => Except.error PyErr.value_error

/-- The body of the `try` block of `load_thresholds`: the three `getfloat`
calls in source order, aborting at the first exception. -/
def try_read_thresholds (config : ConfigFile) : Except PyErr Thresholds :=
  (config.getfloat "THRESHOLDS" "SPEED_KM_HR").bind fun s =>
    (config.getfloat "THRESHOLDS" "RPM").bind fun r =>
      (config.getfloat "THRESHOLDS" "BATTERY_LEVEL_PCT").bind fun b =>
        Except.ok { speed_km_hr := s, rpm := r, battery_level_pct := b }

def msg_config_missing : String :=
  "ERROR: Configuration file config.ini not found!"

def msg_using_defaults : String :=
  "Using default hardcoded thresholds."

def msg_config_read_error : String :=
  "ERROR reading config file."

/-- `load_thresholds` (src/basic.py lines 19-47, src/vehicle_dashboard.py
lines 27-53).  Besides the threshold record it returns the warning lines the
source prints on the fallback paths.  The missing-file check comes first;
then `config.read` runs *outside* the `try` block, so a `configparser.Error`
it raises on INI-malformed content propagates to the caller; then the `try`
block runs the three `getfloat` calls, whose `except configparser.Error`
clause catches only `PyErr.configparser_error` — a `PyErr.value_error` raised
inside the `try` block propagates to the caller.  Both escapes are modelled
by `Except.error`. -/
def load_thresholds (res : Option RawConfig) :
    Except PyErr (Thresholds × List String) :=
  match res with
  | none =>
    Except.ok (default_thresholds, [msg_config_missing, msg_using_defaults])
  | some RawConfig.malformed => Except.error PyErr.configparser_error
  | some (RawConfig.wellformed config) =>
    match try_read_thresholds config with
    | Except.ok t => Except.ok (t, [])
    | Except.error PyErr.configparser_error =>
      Except.ok (default_thresholds, [msg_config_read_error, msg_using_defaults])
    | Except.error PyErr.value_error => Except.error PyErr.value_error

/-- One record per loop cycle: the state before the cycle's
`get_real_time_data` call, the state after it, and the alerts returned by
`check_alerts` on the new state. -/
structure CycleRec where
  pre : VehicleData
  post : VehicleData
  alerts : List Alert
deriving DecidableEq, Repr

/-- The `for cycle in range(1, target_cycles + 1)` loop of
`run_monitoring_cycle`: each iteration acquires new data, displays it (no
state effect), checks alerts, logs (no state effect) and sleeps (no state
effect).  `draws n` is the pair of `random.randint` results consumed by the
`n`-th remaining iteration. -/
def run_loop (thresholds : Thresholds) (data : VehicleData)
    (draws : ℕ → ℤ × ℤ) : ℕ → List CycleRec
  | 0 => []
  | n + 1 =>
    let next := get_real_time_data data (draws 0).1 (draws 0).2
    { pre := data, post := next, alerts := check_alerts next thresholds } ::
      run_loop thresholds next (fun i => draws (i + 1)) n

/-- `run_monitoring_cycle` (src/basic.py lines 107-136, src/vehicle_dashboard.py
lines 108-126): build the initial record, load the thresholds once, override
the speed to 120, then run the cycle loop.  A `ValueError` escaping
`load_thresholds` propagates out of the run.  The result is the list of cycle
records, one per iteration. -/
def run_monitoring_cycle (res : Option RawConfig) (draws : ℕ → ℤ × ℤ)
    (target_cycles : ℕ) : Except PyErr (List CycleRec) :=
  let vehicle_data := init_dashboard_data
  match load_thresholds res with
  | Except.error e => Except.error e
  | Except.ok (thresholds, _warnings) =>
    let vehicle_data := { vehicle_data with speed_km_hr := 120 }
    Except.ok (run_loop thresholds vehicle_data draws target_cycles)

/-! ## Helper lemmas -/

/-- The two clamp spellings agree on `ℤ`: the source's
`max(800, min(6500, x))` equals `clamp(x, 800, 6500)` read as
`min(6500, max(800, x))`. -/
theorem clamp_comm (x : ℤ) : max 800 (min 6500 x) = min 6500 (max 800 x) := by
  omega

theorem round_half_even_le (q : ℚ) : (round_half_even q : ℚ) ≤ q + 1/2 := by
  have hadd := Int.floor_add_fract q
  unfold round_half_even
  split_ifs with h1 h2 h3
  · exact le_trans (Int.floor_le q) (by linarith)
  · push_cast
    have h1' : 1/2 ≤ Int.fract q := le_of_not_lt h1
    linarith
  · exact le_trans (Int.floor_le q) (by linarith)
  · push_cast
    have h1' : 1/2 ≤ Int.fract q := le_of_not_lt h1
    linarith

theorem round_half_even_nonneg (q : ℚ) (h : 0 ≤ q) : 0 ≤ round_half_even q := by
  have hf : 0 ≤ Int.floor q := Int.floor_nonneg.mpr h
  unfold round_half_even
  split_ifs <;> omega

theorem round2_le (q : ℚ) : round2 q ≤ q + 1/200 := by
  have h := round_half_even_le (q * 100)
  unfold round2
  linarith

theorem round2_nonneg (q : ℚ) (h : 0 ≤ q) : 0 ≤ round2 q := by
  have h' : 0 ≤ round_half_even (q * 100) :=
    round_half_even_nonneg (q * 100) (by linarith)
  have h'' : (0 : ℚ) ≤ (round_half_even (q * 100) : ℚ) := Int.cast_nonneg.mpr h'
  unfold round2
  linarith

/-! ## Claims about the simulation step -/

/-- C1: for every input state and every pair of draws (delta in [-15, 15],
noise in [-400, 400]), one simulation step computes, in this order:
speed = max(0, speed + delta); rpm = clamp(speed * 30 + noise, 800, 6500);
drain = 0.01 + rpm / 1500000; battery = max(0, battery - drain) rounded to 2
decimal places; and the returned state is exactly this triple. -/
theorem step_formula (d : VehicleData) (delta noise : ℤ)
    (h1 : -15 ≤ delta) (h2 : delta ≤ 15)
    (h3 : -400 ≤ noise) (h4 : noise ≤ 400) :
    get_real_time_data d delta noise =
      { speed_km_hr := max 0 (d.speed_km_hr + delta),
        rpm := min 6500 (max 800 (max 0 (d.speed_km_hr + delta) * 30 + noise)),
        battery_level_pct := round2 (max 0 (d.battery_level_pct -
          (1/100 +
            ((min 6500 (max 800 (max 0 (d.speed_km_hr + delta) * 30 + noise)) : ℤ) : ℚ)
              / 1500000))) } := by
  simp only [get_real_time_data]
  rw [clamp_comm]

/-- Witness for C1 at the concrete state (120, 0, 100) with draws 5, 100. -/
theorem step_formula_witness :
    get_real_time_data { speed_km_hr := 120, rpm := 0, battery_level_pct := 100 } 5 100 =
      { speed_km_hr := max 0 (120 + 5),
        rpm := min 6500 (max 800 (max 0 (120 + 5) * 30 + 100)),
        battery_level_pct := round2 (max 0 (100 -
          (1/100 + ((min 6500 (max 800 (max 0 (120 + 5) * 30 + 100)) : ℤ) : ℚ)
            / 1500000))) } :=
  step_formula { speed_km_hr := 120, rpm := 0, battery_level_pct := 100 } 5 100
    (by decide) (by decide) (by decide) (by decide)

/-- C2: for every input state (in particular states whose rpm field is 0 or
outside [800, 6500]) and every draw in range, the rpm of the state produced by
one simulation step lies in [800, 6500]. -/
theorem rpm_in_range (d : VehicleData) (delta noise : ℤ)
    (h1 : -15 ≤ delta) (h2 : delta ≤ 15)
    (h3 : -400 ≤ noise) (h4 : noise ≤ 400) :
    800 ≤ (get_real_time_data d delta noise).rpm ∧
      (get_real_time_data d delta noise).rpm ≤ 6500 := by
  simp only [get_real_time_data]
  omega

/-- Witness for C2 at a state whose rpm field (7000) is outside the range. -/
theorem rpm_in_range_witness :
    800 ≤ (get_real_time_data
        { speed_km_hr := 3, rpm := 7000, battery_level_pct := 50 } (-15) 400).rpm ∧
      (get_real_time_data
        { speed_km_hr := 3, rpm := 7000, battery_level_pct := 50 } (-15) 400).rpm ≤ 6500 :=
  rpm_in_range { speed_km_hr := 3, rpm := 7000, battery_level_pct := 50 } (-15) 400
    (by decide) (by decide) (by decide) (by decide)

/-- C3: for every input state with a non-negative battery level (the data
model keeps `battery_pct` in [0, 100]) and every draw, the battery level
produced by one simulation step is at most the level before the step — the
rounding to 2 decimal places cannot undo the drain, which is at least 0.01 —
and at least 0. -/
theorem battery_monotone (d : VehicleData) (delta noise : ℤ)
    (h0 : 0 ≤ d.battery_level_pct) :
    (get_real_time_data d delta noise).battery_level_pct ≤ d.battery_level_pct ∧
      0 ≤ (get_real_time_data d delta noise).battery_level_pct := by
  simp only [get_real_time_data]
  set R : ℤ := max 800 (min 6500 (max 0 (d.speed_km_hr + delta) * 30 + noise)) with hR
  have hR800 : (800 : ℤ) ≤ R := by omega
  have hRq : (800 : ℚ) ≤ (R : ℚ) := by exact_mod_cast hR800
  set drain : ℚ := 1/100 + (R : ℚ) / 1500000 with hdrain
  have hdrain_lb : 1/100 ≤ drain := by
    have : (0 : ℚ) ≤ (R : ℚ) / 1500000 := by positivity
    linarith
  by_cases hc : d.battery_level_pct - drain ≤ 0
  · have hmax : max 0 (d.battery_level_pct - drain) = 0 := max_eq_left hc
    rw [hmax]
    have hz : round2 0 = 0 := by
      unfold round2 round_half_even
      norm_num
    rw [hz]
    exact ⟨h0, le_refl 0⟩
  · push_neg at hc
    have hmax : max 0 (d.battery_level_pct - drain) = d.battery_level_pct - drain :=
      max_eq_right (le_of_lt hc)
    rw [hmax]
    constructor
    · have := round2_le (d.battery_level_pct - drain)
      linarith
    · exact round2_nonneg _ (le_of_lt hc)

/-- Witness for C3 at the concrete state (120, 0, 100) with draws 5, 100. -/
theorem battery_monotone_witness :
    (get_real_time_data
        { speed_km_hr := 120, rpm := 0, battery_level_pct := 100 } 5 100).battery_level_pct
        ≤ (100 : ℚ) ∧
      0 ≤ (get_real_time_data
        { speed_km_hr := 120, rpm := 0, battery_level_pct := 100 } 5 100).battery_level_pct :=
  battery_monotone { speed_km_hr := 120, rpm := 0, battery_level_pct := 100 } 5 100
    (by norm_num)

/-! ## Claims about threshold loading -/

/-- C5: when the configuration resource is absent, threshold loading returns
exactly the default triple (110, 6000, 10) together with the two warning
lines it prints, and in particular does report a warning rather than fail. -/
theorem load_thresholds_missing_default :
    load_thresholds none =
      Except.ok ({ speed_km_hr := 110, rpm := 6000, battery_level_pct := 10 },
        [msg_config_missing, msg_using_defaults]) ∧
      [msg_config_missing, msg_using_defaults] ≠ ([] : List String) :=
  ⟨rfl, by simp⟩

/-! ## Claims about alert evaluation -/

/-- C6: alert evaluation returns a HighSpeed alert iff the speed exceeds its
threshold, a HighRpm alert iff the rpm exceeds its threshold and a LowBattery
alert iff the battery is below its threshold; the three checks are
independent and the list is the concatenation of the three outcomes in the
fixed order speed, rpm, battery. -/
theorem check_alerts_spec (data : VehicleData) (thresholds : Thresholds) :
    check_alerts data thresholds =
      (if (data.speed_km_hr : ℚ) > thresholds.speed_km_hr then
        [Alert.high_speed data.speed_km_hr thresholds.speed_km_hr] else [])
      ++ (if (data.rpm : ℚ) > thresholds.rpm then
        [Alert.high_rpm data.rpm thresholds.rpm] else [])
      ++ (if data.battery_level_pct < thresholds.battery_level_pct then
        [Alert.low_battery data.battery_level_pct thresholds.battery_level_pct] else [])
    ∧ ((Alert.high_speed data.speed_km_hr thresholds.speed_km_hr
          ∈ check_alerts data thresholds) ↔
        (data.speed_km_hr : ℚ) > thresholds.speed_km_hr)
    ∧ ((Alert.high_rpm data.rpm thresholds.rpm ∈ check_alerts data thresholds) ↔
        (data.rpm : ℚ) > thresholds.rpm)
    ∧ ((Alert.low_battery data.battery_level_pct thresholds.battery_level_pct
          ∈ check_alerts data thresholds) ↔
        data.battery_level_pct < thresholds.battery_level_pct) := by
  have heq : check_alerts data thresholds =
      (if (data.speed_km_hr : ℚ) > thresholds.speed_km_hr then
        [Alert.high_speed data.speed_km_hr thresholds.speed_km_hr] else [])
      ++ (if (data.rpm : ℚ) > thresholds.rpm then
        [Alert.high_rpm data.rpm thresholds.rpm] else [])
      ++ (if data.battery_level_pct < thresholds.battery_level_pct then
        [Alert.low_battery data.battery_level_pct thresholds.battery_level_pct] else []) := by
    simp only [check_alerts]
    split_ifs <;> simp
  refine ⟨heq, ?_, ?_, ?_⟩ <;> rw [heq] <;> split_ifs <;> simp_all

/-- C9: alert evaluation is read-only: with the telemetry record and the
threshold record threaded through the call, both come back unchanged. -/
theorem check_alerts_readonly (data : VehicleData) (thresholds : Thresholds) :
    (check_alerts_st data thresholds).1 = data ∧
      (check_alerts_st data thresholds).2.1 = thresholds :=
  ⟨rfl, rfl⟩

/-- C10: the alert list contains at most one alert of each of the three kinds
and hence has length at most 3. -/
theorem check_alerts_at_most_three (data : VehicleData) (thresholds : Thresholds) :
    (check_alerts data thresholds).length ≤ 3 ∧
      ((check_alerts data thresholds).countP (fun a => a.is_high_speed)) ≤ 1 ∧
      ((check_alerts data thresholds).countP (fun a => a.is_high_rpm)) ≤ 1 ∧
      ((check_alerts data thresholds).countP (fun a => a.is_low_battery)) ≤ 1 := by
  simp only [check_alerts]
  split_ifs <;>
    simp [List.countP_cons, List.countP_nil, List.countP_append,
      Alert.is_high_speed, Alert.is_high_rpm, Alert.is_low_battery]

/-! ## Claims about the monitoring loop -/

theorem run_loop_congr (thresholds : Thresholds) (data : VehicleData)
    (f g : ℕ → ℤ × ℤ) (n : ℕ) (h : ∀ i, i < n → f i = g i) :
    run_loop thresholds data f n = run_loop thresholds data g n := by
  induction n generalizing data f g with
  | zero => rfl
  | succ n ih =>
    have h0 : f 0 = g 0 := h 0 (Nat.succ_pos n)
    simp only [run_loop, h0]
    exact congrArg _
      (ih (get_real_time_data data (g 0).1 (g 0).2) _ _
        (fun i hi => h (i + 1) (Nat.succ_lt_succ hi)))

/-- C8: the monitoring loop is deterministic given its random source: two
runs fed draw streams that agree on every draw the run consumes produce
identical cycle trajectories. -/
theorem run_deterministic (res : Option RawConfig) (f g : ℕ → ℤ × ℤ) (n : ℕ)
    (h : ∀ i, i < n → f i = g i) :
    run_monitoring_cycle res f n = run_monitoring_cycle res g n := by
  unfold run_monitoring_cycle
  rcases hl : load_thresholds res with e | p
  · rfl
  · obtain ⟨thresholds, warnings⟩ := p
    simp only
    exact congrArg Except.ok (run_loop_congr thresholds _ f g n h)

/-- Witness for C8: two draw streams that agree on the three consumed draws
but differ afterwards. -/
def w_draws_a : ℕ → ℤ × ℤ := fun i => ((i : ℤ), (i : ℤ) * 3)

def w_draws_b : ℕ → ℤ × ℤ := fun i => if i < 3 then ((i : ℤ), (i : ℤ) * 3) else (7, 7)

theorem run_deterministic_witness :
    run_monitoring_cycle none w_draws_a 3 = run_monitoring_cycle none w_draws_b 3 :=
  run_deterministic none w_draws_a w_draws_b 3 (by decide)
